import Mathlib

/-!
Shallow embedding of the ObstacleDistanceGradient cost-function plugin
(src/stomp_moveit/src/cost_functions/obstacle_distance_gradient.cpp).

Modelling conventions:
- C++ doubles are rationals (ℚ); the numeric claims are exact comparisons and
  a single exact division, so ℚ is a faithful carrier.
- XmlRpc::XmlRpcValue is an inductive of the type tags that matter; the C++
  static_cast<double> throws unless the stored value is a double, modelled by
  XmlVal.asDouble returning Option.
- shared pointers (planning_scene_, plan_request_, robot_state_) are Option
  fields of the component state; null = none.
- A RobotState is reduced to its joint positions (List ℚ); forward-kinematics
  update carries no extra observable data here because the only consumer is
  the distance query, which is an external oracle
  (robot_model_ptr_->distance(group, scene, state)) passed to computeCosts
  as a function of the group name, the stored scene and the joint positions.
- computeCosts additionally records, as data of its result, the list of
  timesteps at which a distance query was issued (queries) and the list of
  index/value writes performed on the costs vector (stores); the costs list
  itself is produced by folding those writes over the zero-allocated vector
  (List.set ignores an out-of-range index, whereas the Eigen write does not
  bound-check; the stores list is what bounds claims are read from).
-/

namespace ODG

/-- XmlRpc::XmlRpcValue, reduced to the type distinctions configure can observe. -/
inductive XmlVal where
  | double (q : ℚ)
  | int (n : Int)
  | str (s : String)
  | boolean (b : Bool)
deriving DecidableEq

/-- static_cast<double> on an XmlRpcValue: XmlRpc's double conversion throws
(caught in configure) unless the value holds a double. -/
def XmlVal.asDouble : XmlVal → Option ℚ
  | .double q => some q
  | _ => none

/-- moveit_msgs::RobotState start-state message: whether
robotStateMsgToRobotState succeeds on it, and the joint positions it carries. -/
structure StartStateMsg where
  convertible : Bool
  values : List ℚ
deriving DecidableEq

/-- moveit_msgs::MotionPlanRequest, reduced to the field this file reads. -/
structure MotionPlanRequest where
  start_state : StartStateMsg
deriving DecidableEq

/-- Eigen::MatrixXd of joint-value columns, one column per timestep. -/
structure ParamMatrix where
  cols : Nat
  col : Nat → List ℚ

/-- The fields of ObstacleDistanceGradient: configured scalars, the group
name, the robot-model reference and the per-request pointers. -/
structure ODGState where
  cost_weight : ℚ
  max_distance : ℚ
  group_name : String
  robot_model_ptr : Option Nat
  planning_scene : Option Nat
  plan_request : Option MotionPlanRequest
  robot_state : Option (List ℚ)
deriving DecidableEq

/-- The constructed plugin: all pointers null. The C++ leaves cost_weight_ and
max_distance_ uninitialized at construction; 0 is an arbitrary stand-in and no
theorem depends on the initial numeric values. -/
def initialState : ODGState :=
  { cost_weight := 0, max_distance := 0, group_name := "",
    robot_model_ptr := none, planning_scene := none,
    plan_request := none, robot_state := none }

/-- moveit_msgs::MoveItErrorCodes::SUCCESS. -/
def moveItSuccess : Int := 1

/-- ObstacleDistanceGradient::configure: requires both keys to be present
(checked in the order cost_weight, max_distance), then inside the try block
assigns max_distance_ first and cost_weight_ second; a conversion throw lands
in the catch and returns false, keeping whatever was assigned before it. -/
def configure (s : ODGState) (config : List (String × XmlVal)) : Bool × ODGState :=
  if (config.lookup "cost_weight").isNone then (false, s)
  else if (config.lookup "max_distance").isNone then (false, s)
  else
    match (config.lookup "max_distance").bind XmlVal.asDouble with
    | none => (false, s)
    | some md =>
      let s1 := { s with max_distance := md }
      match (config.lookup "cost_weight").bind XmlVal.asDouble with
      | none => (false, s1)
      | some cw => (true, { s1 with cost_weight := cw })

/-- moveit::core::robotStateMsgToRobotState: on success the robot state takes
the message's joint values; on failure it returns false and the state keeps
the value it had (the fresh default). -/
def robotStateMsgToRobotState (msg : StartStateMsg) (rs : List ℚ) : Bool × List ℚ :=
  if msg.convertible then (true, msg.values) else (false, rs)

/-- Result of setMotionPlanRequest: boolean return, updated fields, and the
value left in the error_code output parameter. -/
structure SMPRResult where
  ret : Bool
  state : ODGState
  error_code : Int
deriving DecidableEq

/-- ObstacleDistanceGradient::setMotionPlanRequest: stores the scene and the
request, writes SUCCESS into the error-code output, allocates a fresh
robot state, then initializes it from the request's start state; a conversion
failure returns false with every field already overwritten and the error code
still SUCCESS. -/
def setMotionPlanRequest (s : ODGState) (planning_scene : Nat)
    (req : MotionPlanRequest) (_error_code_in : Int) : SMPRResult :=
  let s1 := { s with planning_scene := some planning_scene, plan_request := some req }
  let ec := moveItSuccess
  let fresh : List ℚ := []
  let conv := robotStateMsgToRobotState req.start_state fresh
  let s2 := { s1 with robot_state := some conv.2 }
  if conv.1 then ⟨true, s2, ec⟩ else ⟨false, s2, ec⟩

/-- The three-branch distance-to-cost map inside the computeCosts loop. -/
def distCost (max_distance dist : ℚ) : ℚ :=
  if max_distance ≤ dist then 0
  else if dist < 0 then 1
  else (max_distance - dist) / max_distance

/-- Result of computeCosts: boolean return, state after the loop, the costs
vector, the validity output, the timesteps queried for distance, and the
index/value writes performed on the costs vector. -/
structure CostsEval where
  ret : Bool
  state : ODGState
  costs : List ℚ
  validity : Bool
  queries : List Nat
  stores : List (Nat × ℚ)
deriving DecidableEq

/-- ObstacleDistanceGradient::computeCosts: fails untouched if robot_state_ is
null; zero-allocates costs to length num_timesteps; fails if the parameter
matrix is too narrow; otherwise, for each t in
[start_timestep, start_timestep + num_timesteps), sets the robot state to
column t, queries the distance oracle, maps it through distCost and writes the
result at index t of the costs vector, finally setting validity to true. -/
def computeCosts (distFn : String → Option Nat → List ℚ → ℚ) (s : ODGState)
    (parameters : ParamMatrix) (start_timestep num_timesteps : Nat)
    (_iteration_number _rollout_number : Int)
    (costs_in : List ℚ) (validity_in : Bool) : CostsEval :=
  match s.robot_state with
  | none => ⟨false, s, costs_in, validity_in, [], []⟩
  | some rs0 =>
    let costs0 : List ℚ := List.replicate num_timesteps 0
    if parameters.cols < start_timestep + num_timesteps then
      ⟨false, s, costs0, validity_in, [], []⟩
    else
      let ts := (List.range num_timesteps).map (fun i => start_timestep + i)
      let stores := ts.map (fun t =>
        (t, distCost s.max_distance (distFn s.group_name s.planning_scene (parameters.col t))))
      let finalCosts := stores.foldl (fun c p => c.set p.1 p.2) costs0
      let rsFinal := ts.foldl (fun _rs t => parameters.col t) rs0
      ⟨true, { s with robot_state := some rsFinal }, finalCosts, true, ts, stores⟩

/-- ObstacleDistanceGradient::done: robot_state_.reset() and nothing else. -/
def done (_success : Bool) (_total_iterations : Int) (_final_cost : ℚ)
    (s : ODGState) : ODGState :=
  { s with robot_state := none }

/-- Distance oracle returning a constant far distance. -/
def distFar : String → Option Nat → List ℚ → ℚ := fun _ _ _ => 5

/-- Distance oracle returning zero distance (touching an obstacle). -/
def distZero : String → Option Nat → List ℚ → ℚ := fun _ _ _ => 0

/-- A state as left by a successful configure and setMotionPlanRequest. -/
def armedState : ODGState :=
  { cost_weight := 1, max_distance := 1, group_name := "manipulator",
    robot_model_ptr := some 0, planning_scene := some 0,
    plan_request := some { start_state := { convertible := true, values := [0] } },
    robot_state := some [0] }

/-- A plan request whose start state fails conversion. -/
def badReq : MotionPlanRequest :=
  { start_state := { convertible := false, values := [] } }

/-- A configuration whose cost_weight is present but not a double. -/
def badCfg : List (String × XmlVal) :=
  [("cost_weight", XmlVal.str "abc"), ("max_distance", XmlVal.double 2)]

/-- A one-column parameter matrix. -/
def oneColParams : ParamMatrix := { cols := 1, col := fun _ => [0] }

/-- A five-column parameter matrix. -/
def fiveColParams : ParamMatrix := { cols := 5, col := fun _ => [0] }

/-- A seven-column parameter matrix. -/
def wideParams : ParamMatrix := { cols := 7, col := fun _ => [0] }

theorem distCost_nonneg (D d : ℚ) (hD : 0 < D) : 0 ≤ distCost D d := by
  rcases le_or_lt D d with h | h
  · simp [distCost, h]
  · rcases lt_or_le d 0 with h0 | h0
    · simp [distCost, not_le.mpr h, h0]
    · have hnle : ¬ D ≤ d := not_le.mpr h
      have hnlt : ¬ d < 0 := not_lt.mpr h0
      simp only [distCost, if_neg hnle, if_neg hnlt]
      apply div_nonneg <;> linarith

theorem distCost_le_one (D d : ℚ) (hD : 0 < D) : distCost D d ≤ 1 := by
  rcases le_or_lt D d with h | h
  · simp [distCost, h]
  · rcases lt_or_le d 0 with h0 | h0
    · simp [distCost, not_le.mpr h, h0]
    · have hnle : ¬ D ≤ d := not_le.mpr h
      have hnlt : ¬ d < 0 := not_lt.mpr h0
      simp only [distCost, if_neg hnle, if_neg hnlt]
      rw [div_le_one hD]
      linarith

theorem distCost_anti (D d1 d2 : ℚ) (hD : 0 < D) (h12 : d1 ≤ d2) :
    distCost D d2 ≤ distCost D d1 := by
  rcases le_or_lt D d1 with h1 | h1
  · have h2 : D ≤ d2 := le_trans h1 h12
    simp [distCost, h1, h2]
  · rcases lt_or_le d1 0 with h10 | h10
    · have e1 : distCost D d1 = 1 := by simp [distCost, not_le.mpr h1, h10]
      rw [e1]
      exact distCost_le_one D d2 hD
    · have e1 : distCost D d1 = (D - d1) / D := by
        simp [distCost, not_le.mpr h1, not_lt.mpr h10]
      rcases le_or_lt D d2 with h2 | h2
      · have e2 : distCost D d2 = 0 := by simp [distCost, h2]
        rw [e1, e2]
        apply div_nonneg <;> linarith
      · have e2 : distCost D d2 = (D - d2) / D := by
          simp [distCost, not_le.mpr h2, not_lt.mpr (le_trans h10 h12)]
        rw [e1, e2]
        exact (div_le_div_iff_of_pos_right hD).mpr (by linarith)

theorem distCost_at_zero (D : ℚ) (hD : 0 < D) : distCost D 0 = 1 := by
  have h1 : ¬ D ≤ (0 : ℚ) := not_le.mpr hD
  have h2 : ¬ (0 : ℚ) < 0 := lt_irrefl 0
  simp only [distCost, if_neg h1, if_neg h2, sub_zero]
  exact div_self (ne_of_gt hD)

theorem distCost_far_zero (D e : ℚ) (he : D ≤ e) : distCost D e = 0 := by
  simp [distCost, he]

/-- Length is preserved by folding index/value writes over a list. -/
theorem length_foldl_set (l : List (Nat × ℚ)) (c : List ℚ) :
    (l.foldl (fun acc p => acc.set p.1 p.2) c).length = c.length := by
  induction l generalizing c with
  | nil => rfl
  | cons p l ih => rw [List.foldl_cons, ih, List.length_set]

/-- On the success path the stores of computeCosts are exactly one write per
timestep of the requested range, at that timestep's index, of the
distCost-mapped oracle distance at that timestep's column. -/
theorem computeCosts_stores_eq (distFn : String → Option Nat → List ℚ → ℚ)
    (s : ODGState) (rs0 : List ℚ) (parameters : ParamMatrix)
    (start_timestep num_timesteps : Nat) (it rn : Int)
    (costs_in : List ℚ) (validity_in : Bool)
    (hrs : s.robot_state = some rs0)
    (hcols : ¬ parameters.cols < start_timestep + num_timesteps) :
    (computeCosts distFn s parameters start_timestep num_timesteps it rn costs_in validity_in).stores =
      (List.range num_timesteps).map (fun i => (start_timestep + i,
        distCost s.max_distance
          (distFn s.group_name s.planning_scene (parameters.col (start_timestep + i))))) := by
  simp [computeCosts, hrs, hcols, List.map_map, Function.comp]

/-- C6: for every fixed max_distance D > 0, the distance-to-cost map used by
computeCosts yields a value in [0, 1] for every distance, is monotonically
non-increasing in the distance, maps distance 0 to cost 1 and every distance
at or beyond D to cost 0. -/
theorem distCost_shape (D d d1 d2 e : ℚ) (hD : 0 < D) (h12 : d1 ≤ d2) (he : D ≤ e) :
    0 ≤ distCost D d ∧ distCost D d ≤ 1 ∧ distCost D d2 ≤ distCost D d1 ∧
    distCost D 0 = 1 ∧ distCost D e = 0 :=
  ⟨distCost_nonneg D d hD, distCost_le_one D d hD, distCost_anti D d1 d2 hD h12,
    distCost_at_zero D hD, distCost_far_zero D e he⟩

theorem distCost_shape_w :
    0 ≤ distCost 1 (1/2) ∧ distCost 1 (1/2) ≤ 1 ∧ distCost 1 2 ≤ distCost 1 (1/4) ∧
    distCost 1 0 = 1 ∧ distCost 1 3 = 0 :=
  distCost_shape 1 (1/2) (1/4) 2 3 (by norm_num) (by norm_num) (by norm_num)

/-- C4: every call to setMotionPlanRequest leaves SUCCESS in the error-code
output, whatever value the caller passed in and whether or not the call
returns true; the boolean return is exactly the start-state conversion
outcome, so a failing call (conversion failure) still reports SUCCESS. -/
theorem smpr_error_code_success (s : ODGState) (scene : Nat)
    (req : MotionPlanRequest) (ec_in : Int) :
    (setMotionPlanRequest s scene req ec_in).error_code = moveItSuccess ∧
    (setMotionPlanRequest s scene req ec_in).ret = req.start_state.convertible := by
  unfold setMotionPlanRequest robotStateMsgToRobotState
  cases h : req.start_state.convertible <;> simp [h]

/-- C9: setMotionPlanRequest overwrites the stored planning scene, the stored
plan request and the pose snapshot (fresh, non-null) before the start-state
validation, so the overwrites hold for every call, including failing ones. -/
theorem smpr_overwrites_before_validation (s : ODGState) (scene : Nat)
    (req : MotionPlanRequest) (ec_in : Int) :
    (setMotionPlanRequest s scene req ec_in).state.planning_scene = some scene ∧
    (setMotionPlanRequest s scene req ec_in).state.plan_request = some req ∧
    ((setMotionPlanRequest s scene req ec_in).state.robot_state).isSome = true := by
  unfold setMotionPlanRequest robotStateMsgToRobotState
  cases h : req.start_state.convertible <;> simp [h]

/-- C10: the validity output of computeCosts equals true when the call
succeeds and equals the caller's incoming value on every failing return
(missing pose snapshot or insufficient columns), i.e. validity is written
only on the success path. -/
theorem computeCosts_validity_eq (distFn : String → Option Nat → List ℚ → ℚ)
    (s : ODGState) (parameters : ParamMatrix) (start_timestep num_timesteps : Nat)
    (it rn : Int) (costs_in : List ℚ) (validity_in : Bool) :
    (computeCosts distFn s parameters start_timestep num_timesteps it rn costs_in validity_in).validity =
      ((computeCosts distFn s parameters start_timestep num_timesteps it rn costs_in validity_in).ret
        || validity_in) := by
  cases hrs : s.robot_state with
  | none => simp [computeCosts, hrs]
  | some rs0 =>
    by_cases h : parameters.cols < start_timestep + num_timesteps
    · simp [computeCosts, hrs, h]
    · simp [computeCosts, hrs, h]

/-- C7: whenever the parameter matrix has fewer columns than
startTimestep + numTimesteps, computeCosts returns false having performed no
distance query and no store into the costs vector. -/
theorem computeCosts_insufficient_cols (distFn : String → Option Nat → List ℚ → ℚ)
    (s : ODGState) (parameters : ParamMatrix) (start_timestep num_timesteps : Nat)
    (it rn : Int) (costs_in : List ℚ) (validity_in : Bool)
    (h : parameters.cols < start_timestep + num_timesteps) :
    (computeCosts distFn s parameters start_timestep num_timesteps it rn costs_in validity_in).ret = false ∧
    (computeCosts distFn s parameters start_timestep num_timesteps it rn costs_in validity_in).queries = [] ∧
    (computeCosts distFn s parameters start_timestep num_timesteps it rn costs_in validity_in).stores = [] := by
  cases hrs : s.robot_state with
  | none => simp [computeCosts, hrs]
  | some rs0 => simp [computeCosts, hrs, h]

theorem computeCosts_insufficient_cols_w :
    (computeCosts distFar armedState fiveColParams 3 4 0 0 [] false).ret = false ∧
    (computeCosts distFar armedState fiveColParams 3 4 0 0 [] false).queries = [] ∧
    (computeCosts distFar armedState fiveColParams 3 4 0 0 [] false).stores = [] :=
  computeCosts_insufficient_cols distFar armedState fiveColParams 3 4 0 0 [] false (by decide)

/-- C8 as stated is false: done does not release the stored planning scene or
plan request; on a concrete armed state both remain set after done. -/
theorem done_keeps_planning_context_cex :
    ¬ ((done true 10 0 armedState).planning_scene = none) ∧
    ¬ ((done true 10 0 armedState).plan_request = none) := by
  decide

/-- C8 amended: done always resets the pose snapshot to null regardless of the
success flag, and leaves every other field — the stored planning scene, plan
request, configuration values, group name and robot-model reference —
unchanged. -/
theorem done_resets_only_robot_state (su : Bool) (ti : Int) (fc : ℚ) (s : ODGState) :
    (done su ti fc s).robot_state = none ∧
    (done su ti fc s).planning_scene = s.planning_scene ∧
    (done su ti fc s).plan_request = s.plan_request ∧
    (done su ti fc s).cost_weight = s.cost_weight ∧
    (done su ti fc s).max_distance = s.max_distance ∧
    (done su ti fc s).group_name = s.group_name ∧
    (done su ti fc s).robot_model_ptr = s.robot_model_ptr := by
  simp [done]

/-- C1: every cost stored by computeCosts is derived from the queried
distance d and the configured threshold D = max_distance by the three-branch
policy of the source: d ≥ D gives 0, otherwise d < 0 gives 1, otherwise the
cost is (D - d) / D. -/
theorem computeCosts_branch_policy (distFn : String → Option Nat → List ℚ → ℚ)
    (s : ODGState) (parameters : ParamMatrix) (start_timestep num_timesteps : Nat)
    (it rn : Int) (costs_in : List ℚ) (validity_in : Bool) (t : Nat) (c : ℚ)
    (hmem : (t, c) ∈ (computeCosts distFn s parameters start_timestep num_timesteps it rn costs_in validity_in).stores) :
    (s.max_distance ≤ distFn s.group_name s.planning_scene (parameters.col t) → c = 0) ∧
    (¬ s.max_distance ≤ distFn s.group_name s.planning_scene (parameters.col t) →
      distFn s.group_name s.planning_scene (parameters.col t) < 0 → c = 1) ∧
    (0 ≤ distFn s.group_name s.planning_scene (parameters.col t) →
      distFn s.group_name s.planning_scene (parameters.col t) < s.max_distance →
      c = (s.max_distance - distFn s.group_name s.planning_scene (parameters.col t)) / s.max_distance) := by
  have hc : c = distCost s.max_distance (distFn s.group_name s.planning_scene (parameters.col t)) := by
    cases hrs : s.robot_state with
    | none => simp [computeCosts, hrs] at hmem
    | some rs0 =>
      by_cases hcols : parameters.cols < start_timestep + num_timesteps
      · simp [computeCosts, hrs, hcols] at hmem
      · rw [computeCosts_stores_eq distFn s rs0 parameters start_timestep num_timesteps
          it rn costs_in validity_in hrs hcols] at hmem
        obtain ⟨i, hi, heq⟩ := List.mem_map.mp hmem
        rw [Prod.mk.injEq] at heq
        obtain ⟨h1, h2⟩ := heq
        subst h1
        exact h2.symm
  rw [hc]
  refine ⟨fun hge => ?_, fun hnge hlt => ?_, fun h0 hlt => ?_⟩
  · simp [distCost, hge]
  · simp [distCost, hnge, hlt]
  · simp [distCost, not_le.mpr hlt, not_lt.mpr h0]

theorem computeCosts_branch_policy_w :
    distCost armedState.max_distance
        (distZero armedState.group_name armedState.planning_scene (oneColParams.col 0)) =
      (armedState.max_distance -
        distZero armedState.group_name armedState.planning_scene (oneColParams.col 0)) /
      armedState.max_distance :=
  (computeCosts_branch_policy distZero armedState oneColParams 0 1 0 0 [] false 0
      (distCost armedState.max_distance
        (distZero armedState.group_name armedState.planning_scene (oneColParams.col 0)))
      (by
        rw [computeCosts_stores_eq distZero armedState [0] oneColParams 0 1 0 0 [] false
          rfl (by decide)]
        exact List.mem_map.mpr ⟨0, by decide, rfl⟩)).2.2
    (by decide) (by decide)

/-- C2 as stated is false: on a call that passes the column check with
startTimestep = 3 and numTimesteps = 4, the costs vector has length 4 but the
loop performs a store at index 6, which is not within the vector's bounds. -/
theorem computeCosts_store_out_of_bounds_cex :
    (computeCosts distFar armedState wideParams 3 4 0 0 [] false).ret = true ∧
    (computeCosts distFar armedState wideParams 3 4 0 0 [] false).costs.length = 4 ∧
    (6, (0 : ℚ)) ∈ (computeCosts distFar armedState wideParams 3 4 0 0 [] false).stores ∧
    ¬ (6 < (computeCosts distFar armedState wideParams 3 4 0 0 [] false).costs.length) := by
  decide

/-- C2 amended: past the column check computeCosts allocates costs with
length numTimesteps and performs, for each timestep t of the requested range,
one store of that timestep's cost at index t; those stores all lie within the
vector's bounds when startTimestep = 0 (the aligned-caller case), but for
startTimestep > 0 the indices run up to startTimestep + numTimesteps - 1,
past the end of the vector. -/
theorem computeCosts_stores_at_timestep (distFn : String → Option Nat → List ℚ → ℚ)
    (s : ODGState) (rs0 : List ℚ) (parameters : ParamMatrix)
    (start_timestep num_timesteps : Nat) (it rn : Int)
    (costs_in : List ℚ) (validity_in : Bool)
    (hrs : s.robot_state = some rs0)
    (hcols : ¬ parameters.cols < start_timestep + num_timesteps) :
    (computeCosts distFn s parameters start_timestep num_timesteps it rn costs_in validity_in).ret = true ∧
    (computeCosts distFn s parameters start_timestep num_timesteps it rn costs_in validity_in).costs.length = num_timesteps ∧
    (computeCosts distFn s parameters start_timestep num_timesteps it rn costs_in validity_in).stores =
      (List.range num_timesteps).map (fun i => (start_timestep + i,
        distCost s.max_distance
          (distFn s.group_name s.planning_scene (parameters.col (start_timestep + i))))) ∧
    (start_timestep = 0 →
      ∀ q ∈ (computeCosts distFn s parameters start_timestep num_timesteps it rn costs_in validity_in).stores,
        q.1 < num_timesteps) := by
  have hst := computeCosts_stores_eq distFn s rs0 parameters start_timestep num_timesteps
    it rn costs_in validity_in hrs hcols
  refine ⟨by simp [computeCosts, hrs, hcols], ?_, hst, ?_⟩
  · have hcosts : (computeCosts distFn s parameters start_timestep num_timesteps it rn costs_in validity_in).costs =
        ((computeCosts distFn s parameters start_timestep num_timesteps it rn costs_in validity_in).stores).foldl
          (fun c p => c.set p.1 p.2) (List.replicate num_timesteps 0) := by
      simp [computeCosts, hrs, hcols]
    rw [hcosts, length_foldl_set, List.length_replicate]
  · intro hstart q hq
    subst hstart
    rw [hst] at hq
    obtain ⟨i, hi, heq⟩ := List.mem_map.mp hq
    rw [← heq]
    simpa using List.mem_range.mp hi

theorem computeCosts_stores_at_timestep_w :
    (computeCosts distFar armedState oneColParams 0 1 0 0 [] false).costs.length = 1 :=
  (computeCosts_stores_at_timestep distFar armedState [0] oneColParams 0 1 0 0 [] false
    rfl (by decide)).2.1

/-- C3 as stated is false: a failed setMotionPlanRequest (start-state
conversion failure) still populates the pose snapshot, so computeCosts
invoked afterwards succeeds even though no successful setMotionPlanRequest
ever happened. -/
theorem computeCosts_after_failed_smpr_cex :
    (setMotionPlanRequest initialState 0 badReq 0).ret = false ∧
    (computeCosts distFar (setMotionPlanRequest initialState 0 badReq 0).state
      oneColParams 0 1 0 0 [] false).ret = true := by
  decide

/-- C3 amended: computeCosts fails — leaving costs and validity untouched and
performing no query or store — exactly when the pose snapshot is null, which
holds in the constructed state and after done; but any setMotionPlanRequest
call, even a failing one, repopulates the snapshot. -/
theorem computeCosts_unarmed_fails (distFn : String → Option Nat → List ℚ → ℚ)
    (s s2 : ODGState) (parameters : ParamMatrix) (start_timestep num_timesteps : Nat)
    (it rn : Int) (costs_in : List ℚ) (validity_in : Bool)
    (su : Bool) (ti : Int) (fc : ℚ)
    (h : s.robot_state = none) :
    (computeCosts distFn s parameters start_timestep num_timesteps it rn costs_in validity_in).ret = false ∧
    (computeCosts distFn s parameters start_timestep num_timesteps it rn costs_in validity_in).costs = costs_in ∧
    (computeCosts distFn s parameters start_timestep num_timesteps it rn costs_in validity_in).validity = validity_in ∧
    (computeCosts distFn s parameters start_timestep num_timesteps it rn costs_in validity_in).queries = [] ∧
    (computeCosts distFn s parameters start_timestep num_timesteps it rn costs_in validity_in).stores = [] ∧
    (done su ti fc s2).robot_state = none ∧
    initialState.robot_state = none := by
  simp [computeCosts, h, done, initialState]

theorem computeCosts_unarmed_fails_w :
    (computeCosts distFar initialState oneColParams 0 1 0 0 [] false).ret = false ∧
    (computeCosts distFar initialState oneColParams 0 1 0 0 [] false).costs = [] ∧
    (computeCosts distFar initialState oneColParams 0 1 0 0 [] false).validity = false ∧
    (computeCosts distFar initialState oneColParams 0 1 0 0 [] false).queries = [] ∧
    (computeCosts distFar initialState oneColParams 0 1 0 0 [] false).stores = [] ∧
    (done true 0 0 initialState).robot_state = none ∧
    initialState.robot_state = none :=
  computeCosts_unarmed_fails distFar initialState initialState oneColParams 0 1 0 0 [] false
    true 0 0 rfl

/-- C5 as stated is false: on a configuration where max_distance is a double
but cost_weight is a string, configure returns false yet the stored
max_distance has been overwritten with the parsed value. -/
theorem configure_mutates_on_parse_failure_cex :
    (configure initialState badCfg).1 = false ∧
    (configure initialState badCfg).2.max_distance = 2 ∧
    initialState.max_distance = 0 := by
  decide

/-- C5 amended: configure returns false exactly when a key is absent or a
present value fails the double conversion; the stored values are unchanged
when a key is absent or when max_distance fails to convert, but when
max_distance converts and cost_weight does not, max_distance has already been
overwritten (cost_weight alone is unchanged), because the source assigns
max_distance before attempting cost_weight. -/
theorem configure_failure_spec (s : ODGState) (cfg : List (String × XmlVal)) :
    ((configure s cfg).1 =
      (((cfg.lookup "cost_weight").bind XmlVal.asDouble).isSome &&
       ((cfg.lookup "max_distance").bind XmlVal.asDouble).isSome)) ∧
    ((cfg.lookup "cost_weight" = none ∨ cfg.lookup "max_distance" = none ∨
        (cfg.lookup "max_distance").bind XmlVal.asDouble = none) →
      configure s cfg = (false, s)) ∧
    (∀ vcw md, cfg.lookup "cost_weight" = some vcw → XmlVal.asDouble vcw = none →
      (cfg.lookup "max_distance").bind XmlVal.asDouble = some md →
      configure s cfg = (false, { s with max_distance := md })) := by
  refine ⟨?_, ?_, ?_⟩
  · cases hcw : cfg.lookup "cost_weight" with
    | none => simp [configure, hcw]
    | some vcw =>
      cases hmd : cfg.lookup "max_distance" with
      | none => simp [configure, hcw, hmd]
      | some vmd =>
        cases hda : XmlVal.asDouble vmd with
        | none => simp [configure, hcw, hmd, hda]
        | some q =>
          cases hcda : XmlVal.asDouble vcw with
          | none => simp [configure, hcw, hmd, hda, hcda]
          | some qc => simp [configure, hcw, hmd, hda, hcda]
  · intro hor
    rcases hor with h | h | h
    · simp [configure, h]
    · cases hcw : cfg.lookup "cost_weight" with
      | none => simp [configure, hcw]
      | some vcw => simp [configure, hcw, h]
    · cases hcw : cfg.lookup "cost_weight" with
      | none => simp [configure, hcw]
      | some vcw =>
        cases hmd : cfg.lookup "max_distance" with
        | none => simp [configure, hcw, hmd]
        | some vmd =>
          rw [hmd] at h
          simp only [Option.some_bind] at h
          simp [configure, hcw, hmd, h]
  · intro vcw md hvcw hvda hbind
    cases hmd : cfg.lookup "max_distance" with
    | none => rw [hmd] at hbind; simp at hbind
    | some vmd =>
      rw [hmd] at hbind
      simp only [Option.some_bind] at hbind
      simp [configure, hvcw, hmd, hbind, hvda]

theorem configure_failure_spec_w :
    configure initialState [] = (false, initialState) :=
  (configure_failure_spec initialState []).2.1 (Or.inl rfl)

end ODG
